import Mathlib

/-!
Shallow embedding of the OpenList credit-ledger / payment module.

Go sources embedded here:
* model structs and methods        (src/unnamed/part_002, src/internal/model/user_registration.go)
* db layer (gorm queries)          (src/unnamed/part_001, second and third sections)
* op layer (business operations)   (src/unnamed/part_003, src/internal/op/user_registration.go)
* HTTP payment-notification handler (src/unnamed/part_003, handles section)

Conventions: timestamps are Nat, money/credits are Int, the gorm database is an
explicit DBState record, every operation returns the new DBState together with
an optional error string (the Go error message); writes that the Go code checks
for errors can be made to fail through an explicit Faults record, mirroring a
persistence failure at that call site.  noFaults is the fault-free run.
-/

/-- model.UserCredits (src/unnamed/part_002 lines 10-20): one credit account per user. -/
structure UserCredits where
  userID : Nat
  balance : Int
  totalEarn : Int
  totalSpent : Int
deriving DecidableEq, Repr

/-- model.CreditTransaction (src/unnamed/part_002 lines 23-37): append-only ledger record. -/
structure CreditTransaction where
  userID : Nat
  ttype : String
  amount : Int
  balance : Int
  source : String
  sourceID : String
  description : String
deriving DecidableEq, Repr

/-- model.FileCreditsConfig (src/unnamed/part_002 lines 40-52): a path-pricing rule. -/
structure FileCreditsConfig where
  id : Nat
  path : String
  isFolder : Bool
  credits : Int
  inheritable : Bool
  enabled : Bool
  createdBy : Nat
deriving DecidableEq, Repr

/-- model.RedeemCode (src/unnamed/part_002 lines 55-69). -/
structure RedeemCode where
  id : Nat
  code : String
  credits : Int
  maxUses : Nat
  usedCount : Nat
  enabled : Bool
  expiresAt : Option Nat
deriving DecidableEq, Repr

/-- model.RedeemCodeUsage (src/unnamed/part_002 lines 72-83). -/
structure RedeemCodeUsage where
  userID : Nat
  redeemCodeID : Nat
  credits : Int
  usedAt : Nat
deriving DecidableEq, Repr

/-- model.PaymentOrder (src/unnamed/part_002 lines 86-102); fields the logic reads. -/
structure PaymentOrder where
  orderNo : String
  userID : Nat
  credits : Int
  amount : Int
  status : String
  paidAt : Option Nat
  expiresAt : Nat
  paymentData : String
deriving DecidableEq, Repr

/-- model.UserRegistration (src/internal/model/user_registration.go lines 10-23). -/
structure UserRegistration where
  id : Nat
  email : String
  username : String
  password : String
  pwdHash : String
  salt : String
  status : Int
  token : String
  expiresAt : Nat
deriving DecidableEq, Repr

/-- model.User, reduced to the fields op.ApproveUserRegistration writes (the full
struct is outside src/). -/
structure User where
  id : Nat
  username : String
  pwdHash : String
  salt : String
  basePath : String
  disabled : Bool
deriving DecidableEq, Repr

/-- model.RedeemCode.IsExpired (src/unnamed/part_002 lines 130-135):
expired when an expiry is set and time.Now() is strictly after it. -/
def RedeemCode.IsExpired (rc : RedeemCode) (now : Nat) : Bool :=
  match rc.expiresAt with
  | none => false
  | some t => decide (t < now)

/-- model.RedeemCode.CanUse (src/unnamed/part_002 lines 138-140):
enabled, unexpired, and used-count below max-uses. -/
def RedeemCode.CanUse (rc : RedeemCode) (now : Nat) : Bool :=
  rc.enabled && !(rc.IsExpired now) && decide (rc.usedCount < rc.maxUses)

/-- model.PaymentOrder.IsExpired (src/unnamed/part_002 lines 143-145):
time.Now() strictly after ExpiresAt. -/
def PaymentOrder.IsExpired (po : PaymentOrder) (now : Nat) : Bool :=
  decide (po.expiresAt < now)

/-- model.PaymentOrder.IsPaid (src/unnamed/part_002 lines 148-150):
paid means the literal status string "paid". -/
def PaymentOrder.IsPaid (po : PaymentOrder) : Bool :=
  po.status = "paid"

/-- model.UserRegistration.IsExpired (src/internal/model/user_registration.go lines 49-51). -/
def UserRegistration.IsExpired (ur : UserRegistration) (now : Nat) : Bool :=
  decide (ur.expiresAt < now)

/-- The gorm database as one record: each table is a list of rows, in insertion order. -/
structure DBState where
  userCredits : List UserCredits
  creditTransactions : List CreditTransaction
  fileConfigs : List FileCreditsConfig
  redeemCodes : List RedeemCode
  redeemUsages : List RedeemCodeUsage
  orders : List PaymentOrder
  registrations : List UserRegistration
  users : List User
  nextUserID : Nat
deriving DecidableEq, Repr

/-- The empty database. -/
def emptyDB : DBState :=
  ⟨[], [], [], [], [], [], [], [], 1⟩

/-- Which persistence writes fail (a gorm error at that call site).  The Go code
checks the error of each of these writes; noFaults is the fault-free execution. -/
structure Faults where
  updateCredits : Bool
  createTxn : Bool
  updateOrder : Bool
  updateRedeem : Bool
  createUsage : Bool
deriving DecidableEq, Repr

/-- The fault-free execution: every persistence call succeeds. -/
def noFaults : Faults :=
  ⟨false, false, false, false, false⟩

namespace db

/-- db.GetUserCreditsByUserID (src/unnamed/part_001 lines 391-395):
SELECT where user_id = ? LIMIT 1. -/
def GetUserCreditsByUserID (st : DBState) (userID : Nat) : Option UserCredits :=
  st.userCredits.find? (fun c => c.userID == userID)

/-- db.CreateUserCredits (src/unnamed/part_001 lines 386-388): INSERT. -/
def CreateUserCredits (st : DBState) (c : UserCredits) : DBState :=
  { st with userCredits := st.userCredits ++ [c] }

/-- db.UpdateUserCredits (src/unnamed/part_001 lines 398-400): gorm Save; the row
is keyed by the unique user_id. -/
def UpdateUserCredits (st : DBState) (c : UserCredits) : DBState :=
  { st with userCredits := st.userCredits.map (fun a => if a.userID == c.userID then c else a) }

/-- db.CreateCreditTransaction (src/unnamed/part_001 lines 403-405): INSERT (append). -/
def CreateCreditTransaction (st : DBState) (t : CreditTransaction) : DBState :=
  { st with creditTransactions := st.creditTransactions ++ [t] }

/-- db.GetFileCreditsConfigByPath (src/unnamed/part_001 lines 429-433):
SELECT where path = ? AND enabled = true. -/
def GetFileCreditsConfigByPath (cfgs : List FileCreditsConfig) (path : String) : Option FileCreditsConfig :=
  cfgs.find? (fun c => c.path == path && c.enabled)

/-- SQL `? LIKE CONCAT(path, '%')`: the rule path is a character-wise leading
segment of the queried path (stored paths carry no LIKE wildcards). -/
def likesegment (rulePath queried : String) : Bool :=
  rulePath.data.isPrefixOf queried.data

/-- The candidate filter of db.GetInheritableCreditsConfig: leading-segment match,
folder-type, inheritable, enabled. -/
def inheritCandidate (c : FileCreditsConfig) (path : String) : Bool :=
  likesegment c.path path && c.isFolder && c.inheritable && c.enabled

/-- ORDER BY LENGTH(path) DESC ... First: the row whose path is longest
(first such row on ties, which unique paths rule out among matches). -/
def longestByPath : List FileCreditsConfig → Option FileCreditsConfig
  | [] => none
  | c :: rest =>
    match longestByPath rest with
    | none => some c
    | some b => if b.path.length ≤ c.path.length then some c else some b

/-- db.GetInheritableCreditsConfig (src/unnamed/part_001 lines 462-468):
among enabled inheritable folder rules whose path is a leading segment of the
queried path, the one with the longest path. -/
def GetInheritableCreditsConfig (cfgs : List FileCreditsConfig) (path : String) : Option FileCreditsConfig :=
  longestByPath (cfgs.filter (fun c => inheritCandidate c path))

/-- db.GetRedeemCodeByCode (src/unnamed/part_001 lines 476-480):
SELECT where code = ? AND enabled = true — a disabled code is not found. -/
def GetRedeemCodeByCode (st : DBState) (code : String) : Option RedeemCode :=
  st.redeemCodes.find? (fun rc => rc.code == code && rc.enabled)

/-- db.UpdateRedeemCode (src/unnamed/part_001 lines 499-501): gorm Save by primary key. -/
def UpdateRedeemCode (st : DBState) (rc : RedeemCode) : DBState :=
  { st with redeemCodes := st.redeemCodes.map (fun a => if a.id == rc.id then rc else a) }

/-- db.CreateRedeemCodeUsage (src/unnamed/part_001 lines 504-506): INSERT. -/
def CreateRedeemCodeUsage (st : DBState) (u : RedeemCodeUsage) : DBState :=
  { st with redeemUsages := st.redeemUsages ++ [u] }

/-- db.GetPaymentOrderByOrderNo (src/unnamed/part_001 lines 530-534):
SELECT where order_no = ? LIMIT 1. -/
def GetPaymentOrderByOrderNo (st : DBState) (orderNo : String) : Option PaymentOrder :=
  st.orders.find? (fun o => o.orderNo == orderNo)

/-- db.UpdatePaymentOrder (src/unnamed/part_001 lines 553-555): gorm Save; the row
is keyed by the unique order_no. -/
def UpdatePaymentOrder (st : DBState) (o : PaymentOrder) : DBState :=
  { st with orders := st.orders.map (fun a => if a.orderNo == o.orderNo then o else a) }

/-- db.GetUserRegistrationByToken (src/unnamed/part_001 lines 305-309):
SELECT where token = ? AND status = 0. -/
def GetUserRegistrationByToken (st : DBState) (token : String) : Option UserRegistration :=
  st.registrations.find? (fun r => r.token == token && r.status == 0)

/-- db.UpdateUserRegistration (src/unnamed/part_001 lines 326-328): gorm Save by primary key. -/
def UpdateUserRegistration (st : DBState) (r : UserRegistration) : DBState :=
  { st with registrations := st.registrations.map (fun a => if a.id == r.id then r else a) }

end db

/-- Balance visible through db.GetUserCreditsByUserID; a missing account reads 0
(the value the lazily created account starts with). -/
def balanceOf (st : DBState) (userID : Nat) : Int :=
  match db.GetUserCreditsByUserID st userID with
  | some c => c.balance
  | none => 0

/-- Cumulative spent, read like balanceOf. -/
def totalSpentOf (st : DBState) (userID : Nat) : Int :=
  match db.GetUserCreditsByUserID st userID with
  | some c => c.totalSpent
  | none => 0

/-- Sum of ledger transaction amounts for one account. -/
def txnSum (st : DBState) (userID : Nat) : Int :=
  ((st.creditTransactions.filter (fun t => t.userID == userID)).map (fun t => t.amount)).sum

namespace op

/-- op.CreateUserCredits (src/unnamed/part_003 lines 15-32): return the existing
account if present, otherwise insert a zero-balance account. -/
def CreateUserCredits (st : DBState) (userID : Nat) : DBState × UserCredits :=
  match db.GetUserCreditsByUserID st userID with
  | some c => (st, c)
  | none => (db.CreateUserCredits st ⟨userID, 0, 0, 0⟩, ⟨userID, 0, 0, 0⟩)

/-- op.GetUserCredits (src/unnamed/part_003 lines 35-45): lazy get-or-create. -/
def GetUserCredits (st : DBState) (userID : Nat) : DBState × UserCredits :=
  match db.GetUserCreditsByUserID st userID with
  | some c => (st, c)
  | none => CreateUserCredits st userID

/-- op.AddCredits (src/unnamed/part_003 lines 48-79): add to balance and
cumulative-earn, save the account, then append an earn transaction whose Source
and Description are both the reason string. -/
def AddCredits (st : DBState) (userID : Nat) (amount : Int) (reason orderID : String)
    (f : Faults) : DBState × Option String :=
  let g := GetUserCredits st userID
  let credits1 : UserCredits :=
    { g.2 with balance := g.2.balance + amount, totalEarn := g.2.totalEarn + amount }
  if f.updateCredits then (g.1, some "更新用户积分失败")
  else
    let st2 := db.UpdateUserCredits g.1 credits1
    if f.createTxn then (st2, some "记录积分交易失败")
    else
      (db.CreateCreditTransaction st2
        ⟨userID, "earn", amount, credits1.balance, reason, orderID, reason⟩, none)

/-- op.DeductCredits (src/unnamed/part_003 lines 82-117): read account, reject if
balance < amount, else save the decreased balance and append a spend transaction
with the negated amount and Source fixed to "download". -/
def DeductCredits (st : DBState) (userID : Nat) (amount : Int) (reason fileID : String)
    (f : Faults) : DBState × Option String :=
  let g := GetUserCredits st userID
  if g.2.balance < amount then (g.1, some "积分不足")
  else
    let credits1 : UserCredits :=
      { g.2 with balance := g.2.balance - amount, totalSpent := g.2.totalSpent + amount }
    if f.updateCredits then (g.1, some "更新用户积分失败")
    else
      let st2 := db.UpdateUserCredits g.1 credits1
      if f.createTxn then (st2, some "记录积分交易失败")
      else
        (db.CreateCreditTransaction st2
          ⟨userID, "spend", -amount, credits1.balance, "download", fileID, reason⟩, none)

/-- op.GetFileCreditsConfig (src/unnamed/part_003 lines 142-152): exact enabled
rule first; on record-not-found fall back to the inheritable ancestor rule. -/
def GetFileCreditsConfig (cfgs : List FileCreditsConfig) (path : String) : Option FileCreditsConfig :=
  match db.GetFileCreditsConfigByPath cfgs path with
  | some c => some c
  | none => db.GetInheritableCreditsConfig cfgs path

/-- Price resolution as consumed by op.CheckFileDownloadPermission
(src/unnamed/part_003 lines 337-348): the resolved rule price, a missing rule
meaning free (0 credits). -/
def Resolve (cfgs : List FileCreditsConfig) (path : String) : Int :=
  match GetFileCreditsConfig cfgs path with
  | some c => c.credits
  | none => 0

/-- op.RedeemCode (src/unnamed/part_003 lines 189-228), named RedeemCodeOp to
avoid the model struct name: look up the code (the query already filters
enabled), reject when CanUse fails, then increment used-count, record a usage,
and credit through AddCredits. -/
def RedeemCodeOp (st : DBState) (userID : Nat) (code : String) (now : Nat)
    (f : Faults) : DBState × Option String :=
  match db.GetRedeemCodeByCode st code with
  | none => (st, some "兑换码不存在")
  | some rc =>
    if rc.CanUse now then
      if f.updateRedeem then (st, some "更新兑换码状态失败")
      else
        let st1 := db.UpdateRedeemCode st { rc with usedCount := rc.usedCount + 1 }
        if f.createUsage then (st1, some "记录兑换码使用失败")
        else
          let st2 := db.CreateRedeemCodeUsage st1 ⟨userID, rc.id, rc.credits, now⟩
          let g := AddCredits st2 userID rc.credits ("兑换码: " ++ code) "" f
          match g.2 with
          | some _ => (g.1, some "增加积分失败")
          | none => (g.1, none)
    else (st, some "兑换码已使用或已过期")

/-- The order-field mutation of op.CompletePaymentOrder (src/unnamed/part_003
lines 282-285): status "completed", provider payload JSON, paid-at. -/
def completedOrder (o : PaymentOrder) (transactionID : String) (paidAt : Nat) : PaymentOrder :=
  { o with
    status := "completed"
    paymentData := "\x7b\"transaction_id\":\"" ++ transactionID ++ "\"\x7d"
    paidAt := some paidAt }

/-- op.CompletePaymentOrder (src/unnamed/part_003 lines 268-299): look up the
order; reject unless status is "pending" and the order is unexpired; set status
to "completed", store the provider payload and paid-at; credit the account via
AddCredits with the reason string carrying the order number.  The amount
argument is unused, exactly as in the source. -/
def CompletePaymentOrder (st : DBState) (orderNo transactionID : String) (amount : Int)
    (now paidAt : Nat) (f : Faults) : DBState × Option String :=
  match db.GetPaymentOrderByOrderNo st orderNo with
  | none => (st, some "获取支付订单失败")
  | some order =>
    if order.status ≠ "pending" then (st, some "订单状态异常")
    else if order.IsExpired now then (st, some "订单已过期")
    else
      if f.updateOrder then (st, some "更新支付订单失败")
      else
        let st1 := db.UpdatePaymentOrder st (completedOrder order transactionID paidAt)
        let g := AddCredits st1 order.userID order.credits ("购买积分: " ++ orderNo) orderNo f
        match g.2 with
        | some _ => (g.1, some "增加积分失败")
        | none => (g.1, none)

/-- op.CancelPaymentOrder (src/unnamed/part_003 lines 302-319): look up the
order, reject unless pending, set status to "cancelled".  The userID argument is
never consulted, exactly as in the source. -/
def CancelPaymentOrder (st : DBState) (orderNo : String) (userID : Nat)
    (f : Faults) : DBState × Option String :=
  match db.GetPaymentOrderByOrderNo st orderNo with
  | none => (st, some "获取支付订单失败")
  | some order =>
    if order.status ≠ "pending" then (st, some "订单状态异常")
    else if f.updateOrder then (st, some "更新支付订单失败")
    else (db.UpdatePaymentOrder st { order with status := "cancelled" }, none)

/-- op.CreateUser: outside src/; modelled as inserting the user with a fresh
primary key, which is all op.ApproveUserRegistration relies on. -/
def CreateUser (st : DBState) (u : User) : DBState × User :=
  let u1 := { u with id := st.nextUserID }
  ({ st with users := st.users ++ [u1], nextUserID := st.nextUserID + 1 }, u1)

/-- op.ApproveUserRegistration (src/internal/op/user_registration.go lines
88-132): looks up by the EMPTY token (the registrationID argument is never
consulted), requires status = 1, then creates the user, a credit account, and
marks the registration registered.  Result: state, created user, error. -/
def ApproveUserRegistration (st : DBState) (registrationID : Nat) :
    DBState × Option User × Option String :=
  match db.GetUserRegistrationByToken st "" with
  | none => (st, none, some "获取注册信息失败")
  | some registration =>
    if registration.status ≠ 1 then (st, none, some "注册申请未验证或已处理")
    else
      let g := CreateUser st
        ⟨0, registration.username, registration.pwdHash, registration.salt, "/", false⟩
      let st2 := db.CreateUserCredits g.1 ⟨g.2.id, 0, 0, 0⟩
      let st3 := db.UpdateUserRegistration st2 { registration with status := 2 }
      (st3, some g.2, none)

/-- op.RejectUserRegistration (src/internal/op/user_registration.go lines
135-148): looks up by the EMPTY token (the registrationID argument is never
consulted) and sets status to -1. -/
def RejectUserRegistration (st : DBState) (registrationID : Nat) : DBState × Option String :=
  match db.GetUserRegistrationByToken st "" with
  | none => (st, some "获取注册信息失败")
  | some registration =>
    (db.UpdateUserRegistration st { registration with status := -1 }, none)

end op

namespace handles

/-- handles.PaymentNotification (src/unnamed/part_003 lines 639-700): the inbound
payment-provider callback.  For alipay the JSON body (modelled as a string
association list) yields out_trade_no; for wechat the raw XML body is stashed
and no order number is extracted.  No provider VerifyPayment call is made
anywhere; whenever an order number was extracted the handler directly calls
op.CompletePaymentOrder with a mock transaction id. -/
def PaymentNotification (st : DBState) (provider : String)
    (alipayData : List (String × String)) (wechatBody : String) (now : Nat) :
    DBState × Option String :=
  if provider = "" then (st, some "Provider is required")
  else if provider = "alipay" then
    let orderNo := (alipayData.lookup "out_trade_no").getD ""
    if orderNo ≠ "" then
      let g := op.CompletePaymentOrder st orderNo "mock_transaction_id" 0 now now noFaults
      match g.2 with
      | some e => (g.1, some e)
      | none => (g.1, none)
    else (st, none)
  else if provider = "wechat" then
    let _ := wechatBody
    (st, none)
  else (st, some "Unsupported payment provider")

end handles

/-- One in-flight op.DeductCredits call, split at its three persistence-gateway
calls (the only shared-state accesses): the read (with the local check and
arithmetic that follow it), the account save, the transaction insert. -/
inductive DebitPhase where
  | toRead : DebitPhase
  | toWrite : UserCredits → DebitPhase
  | toAppend : Int → DebitPhase
  | done : DebitPhase
  | insufficient : DebitPhase
deriving DecidableEq, Repr

/-- Two concurrent op.DeductCredits calls over one shared database. -/
structure RaceState where
  store : DBState
  pA : DebitPhase
  pB : DebitPhase
deriving DecidableEq, Repr

/-- One atomic step of an in-flight op.DeductCredits (src/unnamed/part_003 lines
82-117) under the fault-free run: read-and-check, then save, then append. -/
def debitStep (userID : Nat) (amount : Int) (reason fileID : String)
    (s : DBState) : DebitPhase → DBState × DebitPhase
  | .toRead =>
    let g := op.GetUserCredits s userID
    if g.2.balance < amount then (g.1, .insufficient)
    else
      (g.1, .toWrite
        { g.2 with balance := g.2.balance - amount, totalSpent := g.2.totalSpent + amount })
  | .toWrite c => (db.UpdateUserCredits s c, .toAppend c.balance)
  | .toAppend bal =>
    (db.CreateCreditTransaction s ⟨userID, "spend", -amount, bal, "download", fileID, reason⟩,
     .done)
  | .done => (s, .done)
  | .insufficient => (s, .insufficient)

/-- Let process A (true) or B (false) take its next atomic step. -/
def raceStep (userID : Nat) (amount : Int) (reason fileID : String)
    (r : RaceState) (choiceA : Bool) : RaceState :=
  if choiceA then
    let g := debitStep userID amount reason fileID r.store r.pA
    { r with store := g.1, pA := g.2 }
  else
    let g := debitStep userID amount reason fileID r.store r.pB
    { r with store := g.1, pB := g.2 }

/-- Run the two concurrent debits under a given interleaving. -/
def runRace (userID : Nat) (amount : Int) (reason fileID : String)
    (sched : List Bool) (r : RaceState) : RaceState :=
  sched.foldl (raceStep userID amount reason fileID) r

/-! ## Concrete scenarios used by the claims -/

/-- C1 scenario: a pending, unexpired order OL1 of 50 credits for user 7. -/
def stC1 : DBState :=
  { emptyDB with
    orders := [⟨"OL1", 7, 50, 50, "pending", none, 100, ""⟩]
    userCredits := [⟨7, 0, 0, 0⟩] }

/-- C2 witness scenario: a pending order OL1 of 5 credits for user 1. -/
def stC2w : DBState :=
  { emptyDB with
    orders := [⟨"OL1", 1, 5, 5, "pending", none, 100, ""⟩]
    userCredits := [⟨1, 0, 0, 0⟩] }

/-- C3 scenario: user 1 holds balance 100; two debits of 60 run concurrently. -/
def stC3 : DBState := { emptyDB with userCredits := [⟨1, 100, 100, 0⟩] }

/-- C3 interleaving: both processes read before either writes
(A reads, B reads, A writes, A appends, B writes, B appends). -/
def raceSchedule : List Bool := [true, false, true, true, false, false]

/-- C4 scenario: user 1 with zero balance. -/
def stC4 : DBState := { emptyDB with userCredits := [⟨1, 0, 0, 0⟩] }

/-- C4 fault: the transaction-record INSERT fails, every other write succeeds. -/
def faultC4 : Faults := ⟨false, true, false, false, false⟩

/-- C5 witness scenario: user 1 holds balance 100. -/
def stC5w : DBState := { emptyDB with userCredits := [⟨1, 100, 100, 0⟩] }

/-- C6 example rules: an inheritable folder rule at /a worth 5 and an exact
(non-inheritable) rule at /a/b worth 2, both enabled. -/
def exampleConfigs : List FileCreditsConfig :=
  [⟨1, "/a", true, 5, true, true, 9⟩, ⟨2, "/a/b", false, 2, false, true, 9⟩]

/-- C7 scenario: a pending, unexpired order OL1 of 50 credits for user 7. -/
def stC7 : DBState :=
  { emptyDB with
    orders := [⟨"OL1", 7, 50, 50, "pending", none, 100, ""⟩]
    userCredits := [⟨7, 0, 0, 0⟩] }

/-- C8 scenario: a pending order OL1 owned by user 1. -/
def stC8 : DBState := { emptyDB with orders := [⟨"OL1", 1, 5, 5, "pending", none, 100, ""⟩] }

/-- C9 scenario: a redeem code OLD1 exists but is disabled. -/
def stC9 : DBState := { emptyDB with redeemCodes := [⟨1, "OLD1", 10, 1, 0, false, none⟩] }

/-- C10 scenario: one pending registration with the empty token. -/
def regC10 : UserRegistration := ⟨1, "a@b", "alice", "pw", "hash", "salt", 0, "", 100⟩

/-- C10 scenario state holding just that registration. -/
def stC10 : DBState := { emptyDB with registrations := [regC10] }

/-! ## Helper lemmas -/

/-- Replacing, in place, every row matched by p with a row c that also matches p
makes find? p return c, provided some row matched before. -/
theorem find?_map_update {α : Type} (p : α → Bool) (c : α) (l : List α)
    (hp : p c = true) (hex : ∃ x ∈ l, p x = true) :
    (l.map (fun a => if p a then c else a)).find? p = some c := by
  induction l with
  | nil => rcases hex with ⟨x, hx, _⟩; cases hx
  | cons a l ih =>
    by_cases ha : p a = true
    · rw [List.map_cons, if_pos ha]
      exact List.find?_cons_of_pos _ hp
    · rw [List.map_cons, if_neg ha, List.find?_cons_of_neg _ (by simp [ha])]
      refine ih ?_
      rcases hex with ⟨x, hx, hpx⟩
      rcases List.mem_cons.mp hx with rfl | hxl
      · exact absurd hpx ha
      · exact ⟨x, hxl, hpx⟩

/-- The fault-free op.AddCredits never returns an error. -/
theorem AddCredits_noFaults_snd (st : DBState) (userID : Nat) (amount : Int)
    (reason orderID : String) :
    (op.AddCredits st userID amount reason orderID noFaults).2 = none := by
  unfold op.AddCredits
  cases h : op.GetUserCredits st userID <;> rfl

/-- op.AddCredits never touches the payment-order table. -/
theorem AddCredits_orders (st : DBState) (userID : Nat) (amount : Int)
    (reason orderID : String) (f : Faults) :
    (op.AddCredits st userID amount reason orderID f).1.orders = st.orders := by
  unfold op.AddCredits op.GetUserCredits op.CreateUserCredits
  cases h : db.GetUserCreditsByUserID st userID <;>
    cases f.updateCredits <;> cases f.createTxn <;> rfl

/-- Inserting a fresh zero-balance account row changes no visible balance. -/
theorem balanceOf_createZero (st : DBState) (w u : Nat) :
    balanceOf (db.CreateUserCredits st ⟨w, 0, 0, 0⟩) u = balanceOf st u := by
  unfold balanceOf db.GetUserCreditsByUserID db.CreateUserCredits
  rw [List.find?_append]
  cases h : st.userCredits.find? (fun c => c.userID == u) with
  | some c => rfl
  | none =>
    by_cases hw : w = u
    · subst hw; simp [List.find?]
    · have hb : (w == u) = false := beq_eq_false_iff_ne.mpr hw
      simp [List.find?, hb]

/-- Inserting a fresh zero-balance account row changes no cumulative-spent. -/
theorem totalSpentOf_createZero (st : DBState) (w u : Nat) :
    totalSpentOf (db.CreateUserCredits st ⟨w, 0, 0, 0⟩) u = totalSpentOf st u := by
  unfold totalSpentOf db.GetUserCreditsByUserID db.CreateUserCredits
  rw [List.find?_append]
  cases h : st.userCredits.find? (fun c => c.userID == u) with
  | some c => rfl
  | none =>
    by_cases hw : w = u
    · subst hw; simp [List.find?]
    · have hb : (w == u) = false := beq_eq_false_iff_ne.mpr hw
      simp [List.find?, hb]

/-- Saving a payment order does not touch the credit accounts. -/
theorem balanceOf_updateOrder (st : DBState) (o : PaymentOrder) (u : Nat) :
    balanceOf (db.UpdatePaymentOrder st o) u = balanceOf st u := rfl

/-- Appending a ledger transaction does not touch the credit accounts. -/
theorem balanceOf_createTxn (st : DBState) (t : CreditTransaction) (u : Nat) :
    balanceOf (db.CreateCreditTransaction st t) u = balanceOf st u := rfl

/-- Appending a ledger transaction does not touch cumulative-spent. -/
theorem totalSpentOf_createTxn (st : DBState) (t : CreditTransaction) (u : Nat) :
    totalSpentOf (db.CreateCreditTransaction st t) u = totalSpentOf st u := rfl

/-- Saving an account row visible under its own user id makes that id read the
saved balance, provided the id was present. -/
theorem balanceOf_update (st : DBState) (c : UserCredits) (u : Nat) (hc : c.userID = u)
    (hex : ∃ x ∈ st.userCredits, (x.userID == u) = true) :
    balanceOf (db.UpdateUserCredits st c) u = c.balance := by
  unfold balanceOf db.GetUserCreditsByUserID db.UpdateUserCredits
  subst hc
  rw [find?_map_update (fun a : UserCredits => a.userID == c.userID) c _ (by simp) hex]

/-- Saving an account row likewise makes its user id read the saved
cumulative-spent. -/
theorem totalSpentOf_update (st : DBState) (c : UserCredits) (u : Nat) (hc : c.userID = u)
    (hex : ∃ x ∈ st.userCredits, (x.userID == u) = true) :
    totalSpentOf (db.UpdateUserCredits st c) u = c.totalSpent := by
  unfold totalSpentOf db.GetUserCreditsByUserID db.UpdateUserCredits
  subst hc
  rw [find?_map_update (fun a : UserCredits => a.userID == c.userID) c _ (by simp) hex]

/-- The account op.GetUserCredits hands back belongs to the requested user. -/
theorem GetUserCredits_userID (st : DBState) (userID : Nat) :
    (op.GetUserCredits st userID).2.userID = userID := by
  unfold op.GetUserCredits op.CreateUserCredits
  cases h : db.GetUserCreditsByUserID st userID with
  | some c => simpa using List.find?_some h
  | none => rfl

/-- After op.GetUserCredits, the account row is present and is the returned one. -/
theorem GetUserCredits_found (st : DBState) (userID : Nat) :
    db.GetUserCreditsByUserID (op.GetUserCredits st userID).1 userID
      = some (op.GetUserCredits st userID).2 := by
  unfold op.GetUserCredits op.CreateUserCredits
  cases h : db.GetUserCreditsByUserID st userID with
  | some c => exact h
  | none =>
    show db.GetUserCreditsByUserID (db.CreateUserCredits st ⟨userID, 0, 0, 0⟩) userID
        = some ⟨userID, 0, 0, 0⟩
    unfold db.GetUserCreditsByUserID at h
    unfold db.GetUserCreditsByUserID db.CreateUserCredits
    rw [List.find?_append, h]
    simp [List.find?]

/-- The balance op.GetUserCredits hands back is the visible balance. -/
theorem GetUserCredits_balance (st : DBState) (userID : Nat) :
    (op.GetUserCredits st userID).2.balance = balanceOf st userID := by
  unfold op.GetUserCredits op.CreateUserCredits balanceOf
  cases h : db.GetUserCreditsByUserID st userID with
  | some c => rfl
  | none => rfl

/-- The cumulative-spent op.GetUserCredits hands back is the visible one. -/
theorem GetUserCredits_totalSpent (st : DBState) (userID : Nat) :
    (op.GetUserCredits st userID).2.totalSpent = totalSpentOf st userID := by
  unfold op.GetUserCredits op.CreateUserCredits totalSpentOf
  cases h : db.GetUserCreditsByUserID st userID with
  | some c => rfl
  | none => rfl

/-- op.GetUserCredits changes no visible balance. -/
theorem GetUserCredits_balanceOf (st : DBState) (userID u : Nat) :
    balanceOf (op.GetUserCredits st userID).1 u = balanceOf st u := by
  unfold op.GetUserCredits op.CreateUserCredits
  cases h : db.GetUserCreditsByUserID st userID with
  | some c => rfl
  | none => exact balanceOf_createZero st userID u

/-- op.GetUserCredits changes no cumulative-spent. -/
theorem GetUserCredits_totalSpentOf (st : DBState) (userID u : Nat) :
    totalSpentOf (op.GetUserCredits st userID).1 u = totalSpentOf st u := by
  unfold op.GetUserCredits op.CreateUserCredits
  cases h : db.GetUserCreditsByUserID st userID with
  | some c => rfl
  | none => exact totalSpentOf_createZero st userID u

/-- op.GetUserCredits appends no ledger transaction. -/
theorem GetUserCredits_txns (st : DBState) (userID : Nat) :
    (op.GetUserCredits st userID).1.creditTransactions = st.creditTransactions := by
  unfold op.GetUserCredits op.CreateUserCredits
  cases h : db.GetUserCreditsByUserID st userID <;> rfl

/-- The fault-free op.AddCredits, written out as its three persistence steps. -/
theorem AddCredits_noFaults_run (st : DBState) (userID : Nat) (amount : Int)
    (reason orderID : String) :
    op.AddCredits st userID amount reason orderID noFaults
      = (db.CreateCreditTransaction
          (db.UpdateUserCredits (op.GetUserCredits st userID).1
            { (op.GetUserCredits st userID).2 with
              balance := (op.GetUserCredits st userID).2.balance + amount
              totalEarn := (op.GetUserCredits st userID).2.totalEarn + amount })
          ⟨userID, "earn", amount, (op.GetUserCredits st userID).2.balance + amount,
            reason, orderID, reason⟩,
        none) := rfl

/-- The state of the fault-free op.AddCredits, written out as its steps. -/
theorem AddCredits_noFaults_fst (st : DBState) (userID : Nat) (amount : Int)
    (reason orderID : String) :
    (op.AddCredits st userID amount reason orderID noFaults).1
      = db.CreateCreditTransaction
          (db.UpdateUserCredits (op.GetUserCredits st userID).1
            { (op.GetUserCredits st userID).2 with
              balance := (op.GetUserCredits st userID).2.balance + amount
              totalEarn := (op.GetUserCredits st userID).2.totalEarn + amount })
          ⟨userID, "earn", amount, (op.GetUserCredits st userID).2.balance + amount,
            reason, orderID, reason⟩ := rfl

/-- The fault-free op.AddCredits adds exactly amount to the credited balance. -/
theorem AddCredits_balanceOf (st : DBState) (userID : Nat) (amount : Int)
    (reason orderID : String) :
    balanceOf (op.AddCredits st userID amount reason orderID noFaults).1 userID
      = balanceOf st userID + amount := by
  rw [AddCredits_noFaults_fst]
  have hfound : List.find? (fun x : UserCredits => x.userID == userID)
      (op.GetUserCredits st userID).1.userCredits = some (op.GetUserCredits st userID).2 :=
    GetUserCredits_found st userID
  have hpred := List.find?_some hfound
  have hmem := List.mem_of_find?_eq_some hfound
  have hex : ∃ x ∈ (op.GetUserCredits st userID).1.userCredits, (x.userID == userID) = true :=
    ⟨(op.GetUserCredits st userID).2, hmem, hpred⟩
  rw [balanceOf_createTxn, balanceOf_update]
  · exact congrArg (fun z => z + amount) (GetUserCredits_balance st userID)
  · exact GetUserCredits_userID st userID
  · exact hex

/-! ## Claims -/

/-- Claim C1: for every inbound payment-provider callback, the Payment Order
Engine Complete runs only after successful signature verification, and an
unverified callback never changes order status or credits the ledger.  REFUTED
by the code: handles.PaymentNotification never invokes any VerifyPayment; an
alipay callback carrying only out_trade_no (no signature at all, so
verification is never performed and would fail) completes the pending order and
credits 50 to user 7, and adding a forged sign field changes nothing because
the handler never reads it. -/
theorem claim_C1_unverified_callback_mutates_ledger :
    (handles.PaymentNotification stC1 "alipay" [("out_trade_no", "OL1")] "" 10).2 = none
    ∧ (db.GetPaymentOrderByOrderNo
        (handles.PaymentNotification stC1 "alipay" [("out_trade_no", "OL1")] "" 10).1
        "OL1").map (fun o => o.status) = some "completed"
    ∧ balanceOf (handles.PaymentNotification stC1 "alipay" [("out_trade_no", "OL1")] "" 10).1 7
        = 50
    ∧ (handles.PaymentNotification stC1 "alipay" [("out_trade_no", "OL1")] "" 10).1.creditTransactions.length = 1
    ∧ handles.PaymentNotification stC1 "alipay" [("out_trade_no", "OL1"), ("sign", "forged")] "" 10
        = handles.PaymentNotification stC1 "alipay" [("out_trade_no", "OL1")] "" 10 := by
  decide

/-- Claim C3: Debit is an atomic read-modify-write, so two concurrent debits of
60 against balance 100 give exactly one success and one insufficient-balance
failure and can never both pass the check.  REFUTED by the code:
op.DeductCredits is an unguarded read-check-write, and under the interleaving
where both reads precede both writes BOTH calls succeed, the ledger records two
-60 spend transactions (sum -120), yet the balance only drops to 40. -/
theorem claim_C3_interleaved_debits_both_succeed :
    (runRace 1 60 "r" "f" raceSchedule ⟨stC3, .toRead, .toRead⟩).pA = DebitPhase.done
    ∧ (runRace 1 60 "r" "f" raceSchedule ⟨stC3, .toRead, .toRead⟩).pB = DebitPhase.done
    ∧ balanceOf (runRace 1 60 "r" "f" raceSchedule ⟨stC3, .toRead, .toRead⟩).store 1 = 40
    ∧ txnSum (runRace 1 60 "r" "f" raceSchedule ⟨stC3, .toRead, .toRead⟩).store 1 = -120
    ∧ (runRace 1 60 "r" "f" raceSchedule ⟨stC3, .toRead, .toRead⟩).store.creditTransactions.length = 2 := by
  decide

/-- Claim C4: Credit is all-or-nothing — a persistence failure leaves balance
and Transaction either both committed or both absent, so the transaction sum
always reproduces the balance.  REFUTED by the code: op.AddCredits saves the
increased balance first and appends the Transaction second with no rollback, so
when the transaction insert fails the balance is committed (10) while the
ledger stays empty and no longer sums to the balance. -/
theorem claim_C4_credit_not_atomic :
    (op.AddCredits stC4 1 10 "admin" "" faultC4).2 = some "记录积分交易失败"
    ∧ balanceOf (op.AddCredits stC4 1 10 "admin" "" faultC4).1 1 = 10
    ∧ (op.AddCredits stC4 1 10 "admin" "" faultC4).1.creditTransactions = []
    ∧ txnSum (op.AddCredits stC4 1 10 "admin" "" faultC4).1 1
        ≠ balanceOf (op.AddCredits stC4 1 10 "admin" "" faultC4).1 1 := by
  decide

/-- Claim C7: a successful Complete sets the order status to paid (the state in
which model.PaymentOrder.IsPaid holds), records paid-at and the provider
payload, and credits with source=purchase, sourceID=orderNo.  REFUTED by the
code: op.CompletePaymentOrder sets status to the string "completed", for which
IsPaid is false (and which is outside the statuses the model documents), and
the transaction Source is the description string, not the category "purchase";
paid-at, payload, sourceID, and the credit amount do behave as claimed. -/
theorem claim_C7_complete_sets_status_completed_not_paid :
    (op.CompletePaymentOrder stC7 "OL1" "tx9" 0 10 12 noFaults).2 = none
    ∧ (db.GetPaymentOrderByOrderNo (op.CompletePaymentOrder stC7 "OL1" "tx9" 0 10 12 noFaults).1
        "OL1").map (fun o => o.status) = some "completed"
    ∧ (db.GetPaymentOrderByOrderNo (op.CompletePaymentOrder stC7 "OL1" "tx9" 0 10 12 noFaults).1
        "OL1").map PaymentOrder.IsPaid = some false
    ∧ (db.GetPaymentOrderByOrderNo (op.CompletePaymentOrder stC7 "OL1" "tx9" 0 10 12 noFaults).1
        "OL1").map (fun o => o.paidAt) = some (some 12)
    ∧ (db.GetPaymentOrderByOrderNo (op.CompletePaymentOrder stC7 "OL1" "tx9" 0 10 12 noFaults).1
        "OL1").map (fun o => o.paymentData) = some "\x7b\"transaction_id\":\"tx9\"\x7d"
    ∧ (op.CompletePaymentOrder stC7 "OL1" "tx9" 0 10 12 noFaults).1.creditTransactions.map
        (fun t => t.sourceID) = ["OL1"]
    ∧ (op.CompletePaymentOrder stC7 "OL1" "tx9" 0 10 12 noFaults).1.creditTransactions.map
        (fun t => t.source) = ["购买积分: OL1"]
    ∧ ("购买积分: OL1" : String) ≠ "purchase"
    ∧ balanceOf (op.CompletePaymentOrder stC7 "OL1" "tx9" 0 10 12 noFaults).1 7 = 50 := by
  decide

/-- Claim C8: Cancel fails with InvalidOrderState unless pending AND fails with
Forbidden when the order is not owned by the caller.  The ownership half is
REFUTED by the code: op.CancelPaymentOrder never consults its userID argument,
so user 2 successfully cancels the pending order owned by user 1, and any two
callers always get identical results. -/
theorem claim_C8_cancel_ignores_ownership :
    (db.GetPaymentOrderByOrderNo stC8 "OL1").map (fun o => o.userID) = some 1
    ∧ (op.CancelPaymentOrder stC8 "OL1" 2 noFaults).2 = none
    ∧ (db.GetPaymentOrderByOrderNo (op.CancelPaymentOrder stC8 "OL1" 2 noFaults).1
        "OL1").map (fun o => o.status) = some "cancelled"
    ∧ ∀ st n uid1 uid2 f, op.CancelPaymentOrder st n uid1 f = op.CancelPaymentOrder st n uid2 f := by
  exact ⟨by decide, by decide, by decide, fun st n uid1 uid2 f => rfl⟩

/-- Claim C9 counterexample: the claim says a code that exists but is disabled
yields CodeUnusable, not CodeNotFound.  On the code, db.GetRedeemCodeByCode
filters enabled = true, so the disabled code OLD1 is reported as not existing
("兑换码不存在"), not as unusable. -/
theorem claim_C9_counterexample_disabled_is_not_found :
    (∃ rc ∈ stC9.redeemCodes, rc.code = "OLD1" ∧ rc.enabled = false)
    ∧ (op.RedeemCodeOp stC9 1 "OLD1" 5 noFaults).2 = some "兑换码不存在"
    ∧ (op.RedeemCodeOp stC9 1 "OLD1" 5 noFaults).2 ≠ some "兑换码已使用或已过期" := by
  decide

/-- op.RedeemCodeOp when the (enabled-filtered) lookup misses. -/
theorem RedeemCodeOp_notfound (st : DBState) (userID : Nat) (code : String) (now : Nat)
    (f : Faults) (h : db.GetRedeemCodeByCode st code = none) :
    op.RedeemCodeOp st userID code now f = (st, some "兑换码不存在") := by
  simp only [op.RedeemCodeOp, h]

/-- op.RedeemCodeOp when the code is found but CanUse fails. -/
theorem RedeemCodeOp_unusable (st : DBState) (userID : Nat) (code : String) (now : Nat)
    (f : Faults) (rc : RedeemCode) (h : db.GetRedeemCodeByCode st code = some rc)
    (hcu : rc.CanUse now = false) :
    op.RedeemCodeOp st userID code now f = (st, some "兑换码已使用或已过期") := by
  simp only [op.RedeemCodeOp, h, hcu]
  simp

/-- Projection facts about the fault-free run. -/
theorem noFaults_updateCredits : noFaults.updateCredits = false := rfl

/-- Projection facts about the fault-free run. -/
theorem noFaults_createTxn : noFaults.createTxn = false := rfl

/-- Projection facts about the fault-free run. -/
theorem noFaults_updateOrder : noFaults.updateOrder = false := rfl

/-- Projection facts about the fault-free run. -/
theorem noFaults_updateRedeem : noFaults.updateRedeem = false := rfl

/-- Projection facts about the fault-free run. -/
theorem noFaults_createUsage : noFaults.createUsage = false := rfl

/-- The fault-free op.RedeemCodeOp succeeds whenever the found code is usable. -/
theorem RedeemCodeOp_usable_snd (st : DBState) (userID : Nat) (code : String) (now : Nat)
    (rc : RedeemCode) (h : db.GetRedeemCodeByCode st code = some rc)
    (hcu : rc.CanUse now = true) :
    (op.RedeemCodeOp st userID code now noFaults).2 = none := by
  simp only [op.RedeemCodeOp, h, hcu, if_true, noFaults_updateRedeem, noFaults_createUsage,
    Bool.false_eq_true, if_false, AddCredits_noFaults_snd]

/-- Claim C10: ApproveUserRegistration and RejectUserRegistration are
independent of their registrationID argument: both read (and, for Reject,
mutate) the record found by a lookup with the EMPTY token and pending status,
so the admin-supplied ID has no effect.  CONFIRMED against the code. -/
theorem claim_C10_registration_id_ignored :
    (∀ st id1 id2,
        op.ApproveUserRegistration st id1 = op.ApproveUserRegistration st id2
        ∧ op.RejectUserRegistration st id1 = op.RejectUserRegistration st id2)
    ∧ (∀ st id r, db.GetUserRegistrationByToken st "" = some r →
        op.RejectUserRegistration st id
          = (db.UpdateUserRegistration st { r with status := -1 }, none))
    ∧ (∀ st id, db.GetUserRegistrationByToken st "" = none →
        (op.ApproveUserRegistration st id).2.2 = some "获取注册信息失败"
        ∧ (op.RejectUserRegistration st id).2 = some "获取注册信息失败") := by
  refine ⟨fun st id1 id2 => ⟨rfl, rfl⟩, ?_, ?_⟩
  · intro st id r h
    simp only [op.RejectUserRegistration, h]
  · intro st id h
    simp only [op.ApproveUserRegistration, op.RejectUserRegistration, h]
    exact ⟨trivial, trivial⟩

/-- Claim C10 witness at the concrete one-registration state. -/
theorem claim_C10_witness :
    op.RejectUserRegistration stC10 99
      = (db.UpdateUserRegistration stC10 { regC10 with status := -1 }, none) :=
  claim_C10_registration_id_ignored.2.1 stC10 99 regC10 (by decide)

/-- Claim C9 (amended): Redeem fails with CodeNotFound exactly when no ENABLED
code with that string exists — a disabled code also reads as CodeNotFound — and
fails with CodeUnusable exactly when an enabled code exists whose CanUse fails
(expired or used-count at max-uses).  Proved on the fault-free run. -/
theorem claim_C9_amended_not_found_vs_unusable :
    ∀ (st : DBState) (userID : Nat) (code : String) (now : Nat),
      ((op.RedeemCodeOp st userID code now noFaults).2 = some "兑换码不存在"
        ↔ db.GetRedeemCodeByCode st code = none)
      ∧ ((op.RedeemCodeOp st userID code now noFaults).2 = some "兑换码已使用或已过期"
        ↔ ∃ rc, db.GetRedeemCodeByCode st code = some rc ∧ rc.CanUse now = false) := by
  intro st userID code now
  cases h : db.GetRedeemCodeByCode st code with
  | none =>
    rw [RedeemCodeOp_notfound st userID code now noFaults h]
    constructor
    · exact ⟨fun _ => rfl, fun _ => rfl⟩
    · constructor
      · intro habs
        exact absurd (Option.some.inj habs) (by decide)
      · rintro ⟨rc, hrc, -⟩
        cases hrc
  | some rc =>
    cases hcu : rc.CanUse now with
    | true =>
      have hrun := RedeemCodeOp_usable_snd st userID code now rc h hcu
      constructor
      · constructor
        · intro habs; rw [hrun] at habs; cases habs
        · intro habs; cases habs
      · constructor
        · intro habs; rw [hrun] at habs; cases habs
        · rintro ⟨rc2, hrc2, hcu2⟩
          obtain rfl := Option.some.inj hrc2
          rw [hcu] at hcu2
          cases hcu2
    | false =>
      have hrun := RedeemCodeOp_unusable st userID code now noFaults rc h hcu
      rw [hrun]
      constructor
      · constructor
        · intro habs
          exact absurd (Option.some.inj habs) (by decide)
        · intro habs; cases habs
      · exact ⟨fun _ => ⟨rc, rfl, hcu⟩, fun _ => rfl⟩

/-- Claim C9 amended-theorem witness at the disabled-code state. -/
theorem claim_C9_amended_witness :
    ((op.RedeemCodeOp stC9 1 "OLD1" 5 noFaults).2 = some "兑换码不存在"
      ↔ db.GetRedeemCodeByCode stC9 "OLD1" = none)
    ∧ ((op.RedeemCodeOp stC9 1 "OLD1" 5 noFaults).2 = some "兑换码已使用或已过期"
      ↔ ∃ rc, db.GetRedeemCodeByCode stC9 "OLD1" = some rc ∧ rc.CanUse 5 = false) :=
  claim_C9_amended_not_found_vs_unusable stC9 1 "OLD1" 5

/-- op.DeductCredits when the read balance is below the amount. -/
theorem DeductCredits_fail_run (st : DBState) (userID : Nat) (amount : Int)
    (reason fileID : String) (f : Faults)
    (h : (op.GetUserCredits st userID).2.balance < amount) :
    op.DeductCredits st userID amount reason fileID f
      = ((op.GetUserCredits st userID).1, some "积分不足") := by
  simp only [op.DeductCredits]
  rw [if_pos h]

/-- The fault-free op.DeductCredits with sufficient balance, written out as its
persistence steps. -/
theorem DeductCredits_ok_run (st : DBState) (userID : Nat) (amount : Int)
    (reason fileID : String)
    (h : ¬ (op.GetUserCredits st userID).2.balance < amount) :
    op.DeductCredits st userID amount reason fileID noFaults
      = (db.CreateCreditTransaction
          (db.UpdateUserCredits (op.GetUserCredits st userID).1
            { (op.GetUserCredits st userID).2 with
              balance := (op.GetUserCredits st userID).2.balance - amount
              totalSpent := (op.GetUserCredits st userID).2.totalSpent + amount })
          ⟨userID, "spend", -amount, (op.GetUserCredits st userID).2.balance - amount,
            "download", fileID, reason⟩,
        none) := by
  simp only [op.DeductCredits]
  rw [if_neg h]
  rfl

/-- Claim C5: for positive amount, Debit fails with InsufficientBalance exactly
when balance < amount; on that failure everything stays unchanged (up to the
lazily created zero account); on success balance drops by amount,
cumulative-spent rises by amount, and a spend Transaction with signed amount
-amount and Source "download" is appended; the balance never goes negative.
CONFIRMED against op.DeductCredits on the fault-free run. -/
theorem claim_C5_debit_guard (st : DBState) (userID : Nat) (amount : Int)
    (reason fileID : String) (hpos : 0 < amount) :
    ((op.DeductCredits st userID amount reason fileID noFaults).2 = some "积分不足"
      ↔ balanceOf st userID < amount)
    ∧ ((op.DeductCredits st userID amount reason fileID noFaults).2 = some "积分不足" →
        (op.DeductCredits st userID amount reason fileID noFaults).1.creditTransactions
            = st.creditTransactions
        ∧ (∀ u, balanceOf (op.DeductCredits st userID amount reason fileID noFaults).1 u
            = balanceOf st u)
        ∧ (∀ u, totalSpentOf (op.DeductCredits st userID amount reason fileID noFaults).1 u
            = totalSpentOf st u))
    ∧ ((op.DeductCredits st userID amount reason fileID noFaults).2 = none →
        balanceOf (op.DeductCredits st userID amount reason fileID noFaults).1 userID
            = balanceOf st userID - amount
        ∧ totalSpentOf (op.DeductCredits st userID amount reason fileID noFaults).1 userID
            = totalSpentOf st userID + amount
        ∧ (op.DeductCredits st userID amount reason fileID noFaults).1.creditTransactions
            = st.creditTransactions
              ++ [⟨userID, "spend", -amount, balanceOf st userID - amount,
                    "download", fileID, reason⟩])
    ∧ (0 ≤ balanceOf st userID →
        0 ≤ balanceOf (op.DeductCredits st userID amount reason fileID noFaults).1 userID) := by
  by_cases hlt : (op.GetUserCredits st userID).2.balance < amount
  · have hbal : balanceOf st userID < amount := by
      rw [← GetUserCredits_balance st userID]; exact hlt
    rw [DeductCredits_fail_run st userID amount reason fileID noFaults hlt]
    refine ⟨⟨fun _ => hbal, fun _ => rfl⟩, ?_, ?_, ?_⟩
    · intro _
      exact ⟨GetUserCredits_txns st userID,
        fun u => GetUserCredits_balanceOf st userID u,
        fun u => GetUserCredits_totalSpentOf st userID u⟩
    · intro habs
      exact Option.noConfusion habs
    · intro h0
      rw [GetUserCredits_balanceOf]
      exact h0
  · have hble : amount ≤ (op.GetUserCredits st userID).2.balance := le_of_not_lt hlt
    have hbalge : ¬ balanceOf st userID < amount := by
      rw [← GetUserCredits_balance st userID]; exact hlt
    rw [DeductCredits_ok_run st userID amount reason fileID hlt]
    have hfound : List.find? (fun x : UserCredits => x.userID == userID)
        (op.GetUserCredits st userID).1.userCredits = some (op.GetUserCredits st userID).2 :=
      GetUserCredits_found st userID
    have hpred := List.find?_some hfound
    have hmem := List.mem_of_find?_eq_some hfound
    have hex : ∃ x ∈ (op.GetUserCredits st userID).1.userCredits, (x.userID == userID) = true :=
      ⟨_, hmem, hpred⟩
    refine ⟨⟨fun habs => Option.noConfusion habs, fun hcon => absurd hcon hbalge⟩, ?_, ?_, ?_⟩
    · intro habs
      exact Option.noConfusion habs
    · intro _
      refine ⟨?_, ?_, ?_⟩
      · rw [balanceOf_createTxn, balanceOf_update]
        · exact congrArg (fun z => z - amount) (GetUserCredits_balance st userID)
        · exact GetUserCredits_userID st userID
        · exact hex
      · rw [totalSpentOf_createTxn, totalSpentOf_update]
        · exact congrArg (fun z => z + amount) (GetUserCredits_totalSpent st userID)
        · exact GetUserCredits_userID st userID
        · exact hex
      · show (op.GetUserCredits st userID).1.creditTransactions
            ++ [⟨userID, "spend", -amount, (op.GetUserCredits st userID).2.balance - amount,
                  "download", fileID, reason⟩]
            = _
        rw [GetUserCredits_txns, GetUserCredits_balance]
    · intro h0
      rw [balanceOf_createTxn, balanceOf_update]
      · exact sub_nonneg.mpr hble
      · exact GetUserCredits_userID st userID
      · exact hex

/-- Claim C5 witness: user 1 with balance 100 debits 60. -/
theorem claim_C5_witness :
    ((op.DeductCredits stC5w 1 60 "r" "f" noFaults).2 = some "积分不足"
      ↔ balanceOf stC5w 1 < 60)
    ∧ (0 ≤ balanceOf stC5w 1 →
        0 ≤ balanceOf (op.DeductCredits stC5w 1 60 "r" "f" noFaults).1 1) :=
  ⟨(claim_C5_debit_guard stC5w 1 60 "r" "f" (by decide)).1,
   (claim_C5_debit_guard stC5w 1 60 "r" "f" (by decide)).2.2.2⟩

/-- The completed order keeps its order number. -/
theorem completedOrder_orderNo (o : PaymentOrder) (txid : String) (paidAt : Nat) :
    (op.completedOrder o txid paidAt).orderNo = o.orderNo := rfl

/-- The completed order carries the literal status "completed". -/
theorem completedOrder_status (o : PaymentOrder) (txid : String) (paidAt : Nat) :
    (op.completedOrder o txid paidAt).status = "completed" := rfl

/-- op.AddCredits leaves order lookups untouched. -/
theorem AddCredits_getOrder (st : DBState) (userID : Nat) (amount : Int)
    (reason orderID : String) (f : Faults) (n : String) :
    db.GetPaymentOrderByOrderNo (op.AddCredits st userID amount reason orderID f).1 n
      = db.GetPaymentOrderByOrderNo st n := by
  show List.find? _ (op.AddCredits st userID amount reason orderID f).1.orders
      = List.find? _ st.orders
  rw [AddCredits_orders]

/-- Saving an order in place of the one its number found makes the lookup of
that number return the saved order. -/
theorem UpdatePaymentOrder_find (st : DBState) (o : PaymentOrder) (orderNo : String)
    (ho : db.GetPaymentOrderByOrderNo st orderNo = some o) (c : PaymentOrder)
    (hc : c.orderNo = o.orderNo) :
    db.GetPaymentOrderByOrderNo (db.UpdatePaymentOrder st c) orderNo = some c := by
  have ho' : List.find? (fun a : PaymentOrder => a.orderNo == orderNo) st.orders = some o := ho
  have hbeq := List.find?_some ho'
  have hmem := List.mem_of_find?_eq_some ho'
  have hONo : o.orderNo = orderNo := by simpa using hbeq
  have hcNo : c.orderNo = orderNo := hc.trans hONo
  show List.find? (fun a : PaymentOrder => a.orderNo == orderNo)
      (st.orders.map (fun a => if a.orderNo == c.orderNo then c else a)) = some c
  simp only [hcNo]
  exact find?_map_update _ c st.orders (by simp [hcNo]) ⟨o, hmem, hbeq⟩

/-- The fault-free op.CompletePaymentOrder on a pending unexpired order, written
out as its persistence steps. -/
theorem CompletePaymentOrder_pending_run (st : DBState) (o : PaymentOrder)
    (orderNo txid : String) (amt : Int) (now paidAt : Nat)
    (ho : db.GetPaymentOrderByOrderNo st orderNo = some o)
    (hpend : o.status = "pending") (hexp : o.IsExpired now = false) :
    op.CompletePaymentOrder st orderNo txid amt now paidAt noFaults
      = ((op.AddCredits (db.UpdatePaymentOrder st (op.completedOrder o txid paidAt))
            o.userID o.credits ("购买积分: " ++ orderNo) orderNo noFaults).1, none) := by
  simp only [op.CompletePaymentOrder, ho, hpend, hexp, noFaults_updateOrder,
    Bool.false_eq_true, if_false, AddCredits_noFaults_snd]
  simp

/-- Claim C2: after a successful Complete, a second Complete on the same order
number finds status no longer pending, fails with the invalid-state error, and
changes nothing, so the account is credited exactly once in total.  CONFIRMED
against op.CompletePaymentOrder on the fault-free run. -/
theorem claim_C2_complete_idempotent (st : DBState) (orderNo txid : String) (amt : Int)
    (now1 paid1 now2 paid2 : Nat) (st' : DBState)
    (h : op.CompletePaymentOrder st orderNo txid amt now1 paid1 noFaults = (st', none)) :
    op.CompletePaymentOrder st' orderNo txid amt now2 paid2 noFaults
        = (st', some "订单状态异常")
    ∧ ∃ o, db.GetPaymentOrderByOrderNo st orderNo = some o
        ∧ o.status = "pending"
        ∧ balanceOf st' o.userID = balanceOf st o.userID + o.credits := by
  rcases ho : db.GetPaymentOrderByOrderNo st orderNo with _ | o
  · exfalso
    simp only [op.CompletePaymentOrder, ho] at h
    exact Option.noConfusion (congrArg Prod.snd h)
  · by_cases hpend : o.status = "pending"
    · by_cases hexp : o.IsExpired now1 = true
      · exfalso
        simp only [op.CompletePaymentOrder, ho, hpend, hexp] at h
        simp at h
      · have hexp' : o.IsExpired now1 = false := by
          revert hexp; cases o.IsExpired now1 <;> simp
        rw [CompletePaymentOrder_pending_run st o orderNo txid amt now1 paid1 ho hpend hexp']
          at h
        injection h with h1 h2
        subst h1
        have hfound : db.GetPaymentOrderByOrderNo
            (op.AddCredits (db.UpdatePaymentOrder st (op.completedOrder o txid paid1))
              o.userID o.credits ("购买积分: " ++ orderNo) orderNo noFaults).1 orderNo
            = some (op.completedOrder o txid paid1) := by
          rw [AddCredits_getOrder]
          exact UpdatePaymentOrder_find st o orderNo ho (op.completedOrder o txid paid1) rfl
        constructor
        · simp only [op.CompletePaymentOrder, hfound, completedOrder_status]
          simp
        · refine ⟨o, rfl, hpend, ?_⟩
          rw [AddCredits_balanceOf, balanceOf_updateOrder]
    · exfalso
      simp only [op.CompletePaymentOrder, ho] at h
      rw [if_pos hpend] at h
      exact Option.noConfusion (congrArg Prod.snd h)

/-- Claim C2 witness: completing order OL1 twice at the concrete state. -/
theorem claim_C2_witness :
    op.CompletePaymentOrder
        (op.CompletePaymentOrder stC2w "OL1" "tx" 0 5 5 noFaults).1 "OL1" "tx" 0 6 6 noFaults
      = ((op.CompletePaymentOrder stC2w "OL1" "tx" 0 5 5 noFaults).1, some "订单状态异常")
    ∧ ∃ o, db.GetPaymentOrderByOrderNo stC2w "OL1" = some o
        ∧ o.status = "pending"
        ∧ balanceOf (op.CompletePaymentOrder stC2w "OL1" "tx" 0 5 5 noFaults).1 o.userID
            = balanceOf stC2w o.userID + o.credits :=
  claim_C2_complete_idempotent stC2w "OL1" "tx" 0 5 5 6 6
    (op.CompletePaymentOrder stC2w "OL1" "tx" 0 5 5 noFaults).1 (by decide)

/-- A nonempty list always yields a longest row. -/
theorem longestByPath_cons_isSome (c : FileCreditsConfig) (rest : List FileCreditsConfig) :
    (db.longestByPath (c :: rest)).isSome = true := by
  simp only [db.longestByPath]
  cases db.longestByPath rest with
  | none => rfl
  | some b =>
    dsimp only
    by_cases h : b.path.length ≤ c.path.length
    · rw [if_pos h]
      rfl
    · rw [if_neg h]
      rfl

/-- The longest row comes from the list. -/
theorem longestByPath_mem (l : List FileCreditsConfig) (b : FileCreditsConfig)
    (h : db.longestByPath l = some b) : b ∈ l := by
  induction l with
  | nil => simp [db.longestByPath] at h
  | cons c rest ih =>
    simp only [db.longestByPath] at h
    cases hr : db.longestByPath rest with
    | none =>
      rw [hr] at h
      obtain rfl := Option.some.inj h
      exact List.mem_cons_self c rest
    | some d =>
      rw [hr] at h
      dsimp only at h
      by_cases hle : d.path.length ≤ c.path.length
      · rw [if_pos hle] at h
        obtain rfl := Option.some.inj h
        exact List.mem_cons_self c rest
      · rw [if_neg hle] at h
        obtain rfl := Option.some.inj h
        exact List.mem_cons_of_mem c (ih hr)

/-- An empty longest-row answer means the list was empty. -/
theorem longestByPath_eq_none (l : List FileCreditsConfig)
    (h : db.longestByPath l = none) : l = [] := by
  cases l with
  | nil => rfl
  | cons c rest =>
    exfalso
    have hs := longestByPath_cons_isSome c rest
    rw [h] at hs
    simp at hs

/-- When one row strictly dominates every other row of equal length (the unique
longest), longestByPath returns exactly it. -/
theorem longestByPath_unique_max (l : List FileCreditsConfig) (c : FileCreditsConfig)
    (hc : c ∈ l) (hmax : ∀ d ∈ l, d.path.length ≤ c.path.length)
    (huniq : ∀ d ∈ l, d.path.length = c.path.length → d = c) :
    db.longestByPath l = some c := by
  induction l with
  | nil => cases hc
  | cons e rest ih =>
    simp only [db.longestByPath]
    cases hr : db.longestByPath rest with
    | none =>
      have hrest := longestByPath_eq_none rest hr
      subst hrest
      rcases List.mem_cons.mp hc with rfl | hcr
      · rfl
      · cases hcr
    | some b =>
      dsimp only
      have hbmem : b ∈ rest := longestByPath_mem rest b hr
      have hble : b.path.length ≤ c.path.length := hmax b (List.mem_cons_of_mem e hbmem)
      rcases List.mem_cons.mp hc with rfl | hcr
      · rw [if_pos hble]
      · have hmax' : ∀ d ∈ rest, d.path.length ≤ c.path.length :=
          fun d hd => hmax d (List.mem_cons_of_mem e hd)
        have huniq' : ∀ d ∈ rest, d.path.length = c.path.length → d = c :=
          fun d hd => huniq d (List.mem_cons_of_mem e hd)
        have hbc : b = c := by
          have h2 := ih hcr hmax' huniq'
          rw [hr] at h2
          exact Option.some.inj h2
        subst hbc
        by_cases hle : b.path.length ≤ e.path.length
        · have he1 : e.path.length ≤ b.path.length := hmax e (List.mem_cons_self e rest)
          have heq : e.path.length = b.path.length := le_antisymm he1 hle
          have hee : e = b := huniq e (List.mem_cons_self e rest) heq
          rw [if_pos hle, hee]
        · rw [if_neg hle]

/-- With unique paths, the exact enabled rule for a path is what the
enabled-filtered exact lookup returns. -/
theorem findExact_unique (cfgs : List FileCreditsConfig) (p : String) (c : FileCreditsConfig)
    (hn : (cfgs.map FileCreditsConfig.path).Nodup)
    (hc : c ∈ cfgs) (hp : c.path = p) (he : c.enabled = true) :
    db.GetFileCreditsConfigByPath cfgs p = some c := by
  induction cfgs with
  | nil => cases hc
  | cons e rest ih =>
    have hn' : (rest.map FileCreditsConfig.path).Nodup := by
      rw [List.map_cons] at hn
      exact hn.of_cons
    show List.find? (fun x => x.path == p && x.enabled) (e :: rest) = some c
    by_cases hpe : (e.path == p && e.enabled) = true
    · rw [List.find?_cons_of_pos (p := fun x : FileCreditsConfig => x.path == p && x.enabled) _ hpe]
      have hep : e.path = p ∧ e.enabled = true := by
        simpa [Bool.and_eq_true, beq_iff_eq] using hpe
      have hec : e = c :=
        List.inj_on_of_nodup_map hn (List.mem_cons_self e rest) hc (hep.1.trans hp.symm)
      rw [hec]
    · rw [List.find?_cons_of_neg (p := fun x : FileCreditsConfig => x.path == p && x.enabled) _ hpe]
      rcases List.mem_cons.mp hc with rfl | hcr
      · exact absurd (by simp [hp, he] : (c.path == p && c.enabled) = true) hpe
      · exact ih hn' hcr

/-- Two leading segments of the same path with the same character length are
the same string. -/
theorem likesegment_eq_of_length (a b p : String) (ha : db.likesegment a p = true)
    (hb : db.likesegment b p = true) (hl : a.length = b.length) : a = b := by
  have ha' : a.data <+: p.data := List.isPrefixOf_iff_prefix.mp ha
  have hb' : b.data <+: p.data := List.isPrefixOf_iff_prefix.mp hb
  have hlen : a.data.length = b.data.length := hl
  have hab : a.data <+: b.data := List.prefix_of_prefix_length_le ha' hb' (le_of_eq hlen)
  have hdata : a.data = b.data := List.IsPrefix.eq_of_length hab hlen
  cases a
  cases b
  exact congrArg String.mk (by simpa using hdata)

/-- Claim C6: price resolution returns the credits of the exact enabled rule
when one exists (regardless of inheritable), otherwise the credits of the
enabled inheritable folder rule with the longest leading-segment path,
otherwise 0; the /a=5(inheritable), /a/b=2(exact) example resolves /a/b/c to 5,
/a/b to 2, /x to 0.  CONFIRMED against
op.GetFileCreditsConfig / db.GetInheritableCreditsConfig with unique rule paths. -/
theorem claim_C6_pricing_resolution :
    (∀ (cfgs : List FileCreditsConfig) (p : String) (c : FileCreditsConfig),
        (cfgs.map FileCreditsConfig.path).Nodup → c ∈ cfgs → c.path = p → c.enabled = true →
        op.Resolve cfgs p = c.credits)
    ∧ (∀ (cfgs : List FileCreditsConfig) (p : String) (c : FileCreditsConfig),
        (cfgs.map FileCreditsConfig.path).Nodup →
        (∀ d ∈ cfgs, ¬(d.path = p ∧ d.enabled = true)) →
        c ∈ cfgs → db.inheritCandidate c p = true →
        (∀ d ∈ cfgs, db.inheritCandidate d p = true → d.path.length ≤ c.path.length) →
        op.Resolve cfgs p = c.credits)
    ∧ (∀ (cfgs : List FileCreditsConfig) (p : String),
        (∀ d ∈ cfgs, ¬(d.path = p ∧ d.enabled = true)) →
        (∀ d ∈ cfgs, ¬ db.inheritCandidate d p = true) →
        op.Resolve cfgs p = 0)
    ∧ (op.Resolve exampleConfigs "/a/b/c" = 5
        ∧ op.Resolve exampleConfigs "/a/b" = 2
        ∧ op.Resolve exampleConfigs "/x" = 0) := by
  refine ⟨?_, ?_, ?_, by decide⟩
  · intro cfgs p c hn hc hp he
    have hfind := findExact_unique cfgs p c hn hc hp he
    simp only [op.Resolve, op.GetFileCreditsConfig, hfind]
  · intro cfgs p c hn hnoex hc hcand hmax
    have hnone : db.GetFileCreditsConfigByPath cfgs p = none :=
      List.find?_eq_none.mpr (fun x hx hpx =>
        hnoex x hx (by simpa [Bool.and_eq_true, beq_iff_eq] using hpx))
    have hcL : c ∈ cfgs.filter (fun d => db.inheritCandidate d p) :=
      List.mem_filter.mpr ⟨hc, hcand⟩
    have hmaxL : ∀ d ∈ cfgs.filter (fun d => db.inheritCandidate d p),
        d.path.length ≤ c.path.length := by
      intro d hd
      have hd' := List.mem_filter.mp hd
      exact hmax d hd'.1 hd'.2
    have huniqL : ∀ d ∈ cfgs.filter (fun d => db.inheritCandidate d p),
        d.path.length = c.path.length → d = c := by
      intro d hd hlen
      obtain ⟨hdc, hdcand⟩ := List.mem_filter.mp hd
      have hdpre : db.likesegment d.path p = true := by
        have := hdcand
        simp only [db.inheritCandidate, Bool.and_eq_true] at this
        exact this.1.1.1
      have hcpre : db.likesegment c.path p = true := by
        have := hcand
        simp only [db.inheritCandidate, Bool.and_eq_true] at this
        exact this.1.1.1
      have hpaths : d.path = c.path := likesegment_eq_of_length d.path c.path p hdpre hcpre hlen
      exact List.inj_on_of_nodup_map hn hdc hc hpaths
    have hlong : db.longestByPath (cfgs.filter (fun d => db.inheritCandidate d p)) = some c :=
      longestByPath_unique_max _ c hcL hmaxL huniqL
    simp only [op.Resolve, op.GetFileCreditsConfig, hnone, db.GetInheritableCreditsConfig, hlong]
  · intro cfgs p hnoex hnocand
    have hnone : db.GetFileCreditsConfigByPath cfgs p = none :=
      List.find?_eq_none.mpr (fun x hx hpx =>
        hnoex x hx (by simpa [Bool.and_eq_true, beq_iff_eq] using hpx))
    have hfilter : cfgs.filter (fun d => db.inheritCandidate d p) = [] :=
      List.filter_eq_nil_iff.mpr hnocand
    simp only [op.Resolve, op.GetFileCreditsConfig, hnone, db.GetInheritableCreditsConfig,
      hfilter, db.longestByPath]

/-- Claim C6 witness: the exact-rule clause applied at the example. -/
theorem claim_C6_witness :
    op.Resolve exampleConfigs "/a/b"
      = (⟨2, "/a/b", false, 2, false, true, 9⟩ : FileCreditsConfig).credits :=
  claim_C6_pricing_resolution.1 exampleConfigs "/a/b" ⟨2, "/a/b", false, 2, false, true, 9⟩
    (by decide) (by decide) rfl rfl
